import Mathlib

/-!
Verification development for the `job-migration` bulk migrator
(`src/core/jobs/job-migration/main.go`): a parallel copier from MSSQL
source databases into Postgres namespaces.

Modelling conventions:
* Go strings and `[]byte` values are byte sequences; both are embedded as
  `Bytes := List (Fin 256)`.  The `ascii` helper turns an ASCII Lean string
  literal into its byte sequence.
* `strings.ToLower` / `strings.ToUpper` are embedded byte-wise on the ASCII
  range (`lowerByte` / `upperByte`); every literal the migrator compares
  against is ASCII, where the Go functions agree with this embedding.
* `strings.Contains` / `strings.HasSuffix` are embedded as substring /
  suffix tests on byte lists (`containsB` / `hasSuffixB`).
* Machine integers (`int64` precision and scale) are embedded as `Int`;
  `fmt.Sprintf "%d"` is `toString : Int → String` re-encoded with `ascii`.
-/

namespace Migration

abbrev Byte := Fin 256

abbrev Bytes := List Byte

/-- Encoding of an ASCII Lean string literal as a Go byte sequence. -/
def ascii (s : String) : Bytes :=
  s.data.map (fun c => ⟨c.toNat % 256, Nat.mod_lt _ (by norm_num)⟩)

/-- Byte-wise lower-casing of one byte, as `strings.ToLower` acts on ASCII. -/
def lowerByte (b : Byte) : Byte :=
  if h : 65 ≤ b.val ∧ b.val ≤ 90 then ⟨b.val + 32, by omega⟩ else b

/-- Byte-wise upper-casing of one byte, as `strings.ToUpper` acts on ASCII. -/
def upperByte (b : Byte) : Byte :=
  if h : 97 ≤ b.val ∧ b.val ≤ 122 then ⟨b.val - 32, by omega⟩ else b

/-- Embedding of `strings.ToLower` (ASCII range). -/
def toLowerB (s : Bytes) : Bytes := s.map lowerByte

/-- Embedding of `strings.ToUpper` (ASCII range). -/
def toUpperB (s : Bytes) : Bytes := s.map upperByte

/-- Embedding of `strings.HasSuffix s suf`. -/
def hasSuffixB (s suf : Bytes) : Bool := suf.isSuffixOf s

/-- Embedding of `strings.Contains s sub`: `sub` occurs contiguously in `s`. -/
def containsB (s sub : Bytes) : Bool :=
  (List.range (s.length + 1)).any (fun i => sub.isPrefixOf (s.drop i))

/-- Embedding of `isIgnoredTable` (main.go lines 50-59).  The Go map lookup
`ignoredList[t]` yields `true` exactly on the six listed keys and `false`
otherwise, which the final conditional reproduces. -/
def isIgnoredTable (tableName : Bytes) : Bool :=
  let t := toLowerB tableName
  if t = ascii "dtproperties" ∨ t = ascii "sysdiagrams" ∨ t = ascii "systranschemas" then true
  else if hasSuffixB t (ascii "_ct") || containsB t (ascii "_ct_") then true
  else if t = ascii "change_tables" ∨ t = ascii "ddl_history" ∨ t = ascii "lsn_time_mapping"
      ∨ t = ascii "captured_columns" ∨ t = ascii "index_columns" ∨ t = ascii "comandos" then true
  else false

/-- Embedding of `getPostgresType` (main.go lines 61-96).  The Go `switch` on
the upper-cased type name becomes a chain of equality tests; the
`fmt.Sprintf("NUMERIC(%d, %d)", precision, scale)` call becomes the
corresponding byte-sequence concatenation. -/
def getPostgresType (mssqlType : Bytes) (precision scale : Int) : Bytes :=
  let t := toUpperB mssqlType
  if t = ascii "TINYINT" ∨ t = ascii "SMALLINT" then ascii "SMALLINT"
  else if t = ascii "INT" ∨ t = ascii "INTEGER" then ascii "INTEGER"
  else if t = ascii "BIGINT" then ascii "BIGINT"
  else if t = ascii "BIT" then ascii "BOOLEAN"
  else if t = ascii "REAL" then ascii "REAL"
  else if t = ascii "FLOAT" then ascii "DOUBLE PRECISION"
  else if t = ascii "DECIMAL" ∨ t = ascii "NUMERIC" ∨ t = ascii "MONEY" ∨ t = ascii "SMALLMONEY" then
    (if precision > 0 then
      ascii "NUMERIC(" ++ ascii (toString precision) ++ ascii ", " ++ ascii (toString scale) ++ ascii ")"
    else ascii "NUMERIC")
  else if t = ascii "DATE" then ascii "DATE"
  else if t = ascii "DATETIME" ∨ t = ascii "DATETIME2" ∨ t = ascii "SMALLDATETIME" then ascii "TIMESTAMP"
  else if t = ascii "TIME" then ascii "TIME"
  else if t = ascii "CHAR" ∨ t = ascii "NCHAR" ∨ t = ascii "VARCHAR" ∨ t = ascii "NVARCHAR"
      ∨ t = ascii "TEXT" ∨ t = ascii "NTEXT" ∨ t = ascii "SYSNAME" then ascii "TEXT"
  else if t = ascii "BINARY" ∨ t = ascii "VARBINARY" ∨ t = ascii "IMAGE" ∨ t = ascii "TIMESTAMP_SQL" then
    ascii "BYTEA"
  else if t = ascii "UNIQUEIDENTIFIER" then ascii "UUID"
  else ascii "TEXT"

/-- Transcription of the type-mapping table of spec §4.1, as a function of the
already upper-cased source type name `u`.  The table row
`DECIMAL, NUMERIC, MONEY, SMALLMONEY → NUMERIC(p,s) if p>0 else NUMERIC`
denotes the parameterised SQL declaration; the migrator renders it with a
`", "` separator, which this transcription follows. -/
def specTypeTable (u : Bytes) (p s : Int) : Bytes :=
  if u = ascii "TINYINT" ∨ u = ascii "SMALLINT" then ascii "SMALLINT"
  else if u = ascii "INT" ∨ u = ascii "INTEGER" then ascii "INTEGER"
  else if u = ascii "BIGINT" then ascii "BIGINT"
  else if u = ascii "BIT" then ascii "BOOLEAN"
  else if u = ascii "REAL" then ascii "REAL"
  else if u = ascii "FLOAT" then ascii "DOUBLE PRECISION"
  else if u = ascii "DECIMAL" ∨ u = ascii "NUMERIC" ∨ u = ascii "MONEY" ∨ u = ascii "SMALLMONEY" then
    (if p > 0 then
      ascii "NUMERIC(" ++ ascii (toString p) ++ ascii ", " ++ ascii (toString s) ++ ascii ")"
    else ascii "NUMERIC")
  else if u = ascii "DATE" then ascii "DATE"
  else if u = ascii "DATETIME" ∨ u = ascii "DATETIME2" ∨ u = ascii "SMALLDATETIME" then ascii "TIMESTAMP"
  else if u = ascii "TIME" then ascii "TIME"
  else if u = ascii "CHAR" ∨ u = ascii "NCHAR" ∨ u = ascii "VARCHAR" ∨ u = ascii "NVARCHAR"
      ∨ u = ascii "TEXT" ∨ u = ascii "NTEXT" ∨ u = ascii "SYSNAME" then ascii "TEXT"
  else if u = ascii "BINARY" ∨ u = ascii "VARBINARY" ∨ u = ascii "IMAGE" ∨ u = ascii "TIMESTAMP_SQL" then
    ascii "BYTEA"
  else if u = ascii "UNIQUEIDENTIFIER" then ascii "UUID"
  else ascii "TEXT"

/-- Every source type name with a dedicated row in the mapping table of
spec §4.1 (upper-cased form). -/
def mappedTypeNames : List Bytes :=
  [ascii "TINYINT", ascii "SMALLINT", ascii "INT", ascii "INTEGER", ascii "BIGINT",
   ascii "BIT", ascii "REAL", ascii "FLOAT",
   ascii "DECIMAL", ascii "NUMERIC", ascii "MONEY", ascii "SMALLMONEY",
   ascii "DATE", ascii "DATETIME", ascii "DATETIME2", ascii "SMALLDATETIME", ascii "TIME",
   ascii "CHAR", ascii "NCHAR", ascii "VARCHAR", ascii "NVARCHAR",
   ascii "TEXT", ascii "NTEXT", ascii "SYSNAME",
   ascii "BINARY", ascii "VARBINARY", ascii "IMAGE", ascii "TIMESTAMP_SQL",
   ascii "UNIQUEIDENTIFIER"]

/-- The shapes a scanned cell can take at the driver boundary: the Go code
switches on `v.(type)` over `nil`, `[]byte`, `string`, `bool`, and a default
branch that passes any other driver value (numeric, date/time, float)
through unchanged; `α` stands for those pass-through values. -/
inductive GoValue (α : Type) where
  | goNull : GoValue α
  | goBytes : Bytes → GoValue α
  | goString : Bytes → GoValue α
  | goBool : Bool → GoValue α
  | goOther : α → GoValue α
deriving DecidableEq

/-- Embedding of `strings.ReplaceAll(strVal, "\x00", "")`: replacing every
occurrence of the single byte 0x00 by the empty string removes exactly the
0x00 bytes. -/
def stripNul (s : Bytes) : Bytes := s.filter (fun b => decide (b ≠ 0))

/-- Lower-case hexadecimal digit for a value below 16, as `fmt.Sprintf "%x"`
renders it: 0-9 as bytes 48-57, 10-15 as bytes 97-102. -/
def hexDigitByte (n : Fin 16) : Byte :=
  if n.val < 10 then ⟨48 + n.val, by have := n.isLt; omega⟩
  else ⟨87 + n.val, by have := n.isLt; omega⟩

/-- Two-digit lower-case hexadecimal rendering of one byte (`%x` renders each
byte of a `[]byte` as exactly two lower-case hex digits). -/
def hexPair (b : Byte) : Bytes :=
  [hexDigitByte ⟨b.val / 16, by have := b.isLt; omega⟩,
   hexDigitByte ⟨b.val % 16, Nat.mod_lt _ (by norm_num)⟩]

/-- Hexadecimal rendering of a byte sequence, two digits per byte. -/
def hexSeq : Bytes → Bytes
  | [] => []
  | b :: bs => hexPair b ++ hexSeq bs

/-- Embedding of `fmt.Sprintf("%x-%x-%x-%x-%x", t[0:4], t[4:6], t[6:8],
t[8:10], t[10:])` (main.go line 260); byte 45 is the ASCII hyphen. -/
def uuidHyphenated (t : Bytes) : Bytes :=
  hexSeq (t.take 4) ++ [45] ++ hexSeq ((t.drop 4).take 2) ++ [45]
    ++ hexSeq ((t.drop 6).take 2) ++ [45] ++ hexSeq ((t.drop 8).take 2) ++ [45]
    ++ hexSeq (t.drop 10)

/-- Embedding of the per-cell coercion of `migrateTable` (main.go lines
247-277).  `dbTypeName` is the driver-reported column type name; the code
upper-cases it (line 252) before the `[]byte` branch dispatches on it.  The
BIT/BOOLEAN branch embeds `len(t) > 0 && t[0] == 1` as a match on the list. -/
def coerceValue {α : Type} (dbTypeName : Bytes) (v : GoValue α) : GoValue α :=
  match v with
  | .goNull => .goNull
  | .goBytes t =>
    let typeName := toUpperB dbTypeName
    if typeName = ascii "BIT" ∨ typeName = ascii "BOOLEAN" then
      .goBool (match t with | [] => false | b :: _ => decide (b = 1))
    else if typeName = ascii "UNIQUEIDENTIFIER" then
      (if t.length = 16 then .goString (uuidHyphenated t) else .goNull)
    else if containsB typeName (ascii "BINARY") || containsB typeName (ascii "IMAGE") then
      .goBytes t
    else .goString (stripNul t)
  | .goString s => .goString (stripNul s)
  | .goBool b => .goBool b
  | .goOther x => .goOther x

/-- Embedding of the Go truncation idiom `if len(n) > 63 { n = n[:63] }`
applied to constraint names (main.go lines 297 and 333). -/
def truncate63 (s : Bytes) : Bytes := if 63 < s.length then s.take 63 else s

/-- Embedding of the primary-key constraint name
`fmt.Sprintf("pk_%s_%s", schema, table)` truncated to 63 bytes
(main.go lines 296-297). -/
def pkConstraintName (schema table : Bytes) : Bytes :=
  truncate63 (ascii "pk_" ++ schema ++ ascii "_" ++ table)

/-- Embedding of the foreign-key constraint name
`fmt.Sprintf("fk_%s_%s_%s", tableName, col, refTable)` truncated to 63 bytes
(main.go lines 332-333). -/
def fkConstraintName (tableName col refTable : Bytes) : Bytes :=
  truncate63 (ascii "fk_" ++ tableName ++ ascii "_" ++ col ++ ascii "_" ++ refTable)

/-- Embedding of the generated `ALTER TABLE ... ADD CONSTRAINT ... FOREIGN
KEY` statement (main.go line 334).  The Go format string names `schema` for
both the origin-table qualifier and the `REFERENCES` qualifier. -/
def fkSQL (schema tableName pgFkName col refTable refCol : Bytes) : Bytes :=
  ascii "ALTER TABLE \"" ++ schema ++ ascii "\".\"" ++ tableName
    ++ ascii "\" ADD CONSTRAINT \"" ++ pgFkName
    ++ ascii "\" FOREIGN KEY (\"" ++ col
    ++ ascii "\") REFERENCES \"" ++ schema ++ ascii "\".\"" ++ refTable
    ++ ascii "\" (\"" ++ refCol ++ ascii "\")"

/-- One successfully scanned row of the `sys.foreign_key_columns` catalog
query of `getForeignKeys` (main.go lines 324-331): constraint name, origin
column, referenced table, referenced column. -/
structure CatalogFkRow where
  fkName : Bytes
  col : Bytes
  refTable : Bytes
  refCol : Bytes
deriving DecidableEq

/-- Embedding of the `ForeignKeySQL` struct (main.go lines 25-28). -/
structure ForeignKeySQL where
  ConstraintName : Bytes
  SQL : Bytes
deriving DecidableEq

/-- Embedding of the result-building loop of `getForeignKeys` (main.go lines
328-338) over the successfully scanned catalog rows: each row yields one
descriptor whose name is the truncated `fk_...` name and whose statement is
`fkSQL` with the worker's `schema` in both qualifier positions. -/
def getForeignKeys (schema tableName : Bytes) (catalogRows : List CatalogFkRow) :
    List ForeignKeySQL :=
  catalogRows.map fun r =>
    { ConstraintName := fkConstraintName tableName r.col r.refTable
      SQL := fkSQL schema tableName (fkConstraintName tableName r.col r.refTable)
               r.col r.refTable r.refCol }

/-- Outcome of one iteration of the row loop of `migrateTable` (main.go lines
243-291): the `rows.Scan` call fails (`continue`), or the prepared insert
fails (error swallowed), or the row is inserted. -/
inductive RowOutcome where
  | scanFail : RowOutcome
  | insertFail : RowOutcome
  | inserted : RowOutcome
deriving DecidableEq

/-- Observable per-table effects of the row loop: rows that reached the
target, the `count` variable of the loop, and the number of log lines emitted
for failed inserts. -/
structure RowLoopResult where
  insertedRows : Nat
  count : Nat
  insertErrorLogs : Nat
deriving DecidableEq

/-- One iteration of the row loop (main.go lines 243-291).  A scan failure
runs `continue` before any effect; a failed insert falls into the
`// Silencioso` branch, which emits no log line, and then increments `count`;
a successful insert adds one target row and increments `count`. -/
def processRow (st : RowLoopResult) : RowOutcome → RowLoopResult
  | .scanFail => st
  | .insertFail => { st with count := st.count + 1 }
  | .inserted => { st with insertedRows := st.insertedRows + 1, count := st.count + 1 }

/-- The whole row loop over the stream of source rows. -/
def rowLoop (rows : List RowOutcome) : RowLoopResult :=
  rows.foldl processRow ⟨0, 0, 0⟩

/-- A target table is addressed by (namespace, table name). -/
abbrev TableKey := Bytes × Bytes

/-- What one run installs at a table key: the created column declarations and
the coerced rows.  Both are computed from the source database alone
(`migrateTable` reads only source metadata and source rows). -/
structure TableContent where
  createCols : List (Bytes × Bytes)
  tableRows : List (List (GoValue Int))

/-- The migration-relevant target-database state: which content each table
key currently holds, if any. -/
def TargetState := TableKey → Option TableContent

/-- Effect of `migrateTable` on one table key: `DROP TABLE IF EXISTS ...
CASCADE` (main.go line 204) followed by `CREATE TABLE` and the inserts
(lines 206-292).  The drop discards whatever was there, so the key ends up
holding exactly the freshly computed content, independent of the prior
state. -/
def dropCreateFill (st : TargetState) (k : TableKey) (v : TableContent) : TargetState :=
  fun q => if q = k then some v else st q

/-- One full run over the per-table writes it performs.  The write list is
computed from the source catalogs and rows alone, so two back-to-back runs
against the same sources perform the same writes. -/
def runMigration : List (TableKey × TableContent) → TargetState → TargetState
  | [], st => st
  | w :: ws, st => runMigration ws (dropCreateFill st w.1 w.2)

/-- The 16 bytes of the UUID boundary scenario of spec §8. -/
def uuidExampleBytes : Bytes :=
  [0x11, 0x22, 0x33, 0x44, 0x55, 0x66, 0x77, 0x88,
   0x99, 0xAA, 0xBB, 0xCC, 0xDD, 0xEE, 0xFF, 0x00]

/-- Lower-case hexadecimal digit or hyphen: the alphabet of a canonical
UUID string. -/
def isLowerHexOrDash (b : Byte) : Bool :=
  decide ((48 ≤ b.val ∧ b.val ≤ 57) ∨ (97 ≤ b.val ∧ b.val ≤ 102) ∨ b.val = 45)

lemma stripNul_not_mem (s : Bytes) : (0 : Byte) ∉ stripNul s := by
  simp [stripNul, List.mem_filter]

lemma truncate63_length_le (s : Bytes) : (truncate63 s).length ≤ 63 := by
  unfold truncate63
  split
  · simp only [List.length_take]
    omega
  · omega

/-- C1: a cell arriving as a text value, or as a raw byte sequence whose
column type is not BIT/BOOLEAN, not UNIQUEIDENTIFIER, and whose type name
contains neither BINARY nor IMAGE, is coerced to the input with every 0x00
byte removed, and hence the coerced value contains no 0x00 byte. -/
theorem claim1_text_strips_nul {α : Type} (dbTypeName : Bytes) (s t : Bytes)
    (hbit : toUpperB dbTypeName ≠ ascii "BIT")
    (hbool : toUpperB dbTypeName ≠ ascii "BOOLEAN")
    (huuid : toUpperB dbTypeName ≠ ascii "UNIQUEIDENTIFIER")
    (hbin : containsB (toUpperB dbTypeName) (ascii "BINARY") = false)
    (himg : containsB (toUpperB dbTypeName) (ascii "IMAGE") = false) :
    coerceValue dbTypeName (GoValue.goString s : GoValue α) = .goString (stripNul s)
    ∧ coerceValue dbTypeName (GoValue.goBytes t : GoValue α) = .goString (stripNul t)
    ∧ (0 : Byte) ∉ stripNul s ∧ (0 : Byte) ∉ stripNul t := by
  refine ⟨rfl, ?_, stripNul_not_mem s, stripNul_not_mem t⟩
  simp [coerceValue, hbit, hbool, huuid, hbin, himg]

/-- Witness for C1 at the boundary scenario of spec §8: an NVARCHAR cell
holding the bytes of `"hola\x00mundo"`. -/
theorem claim1_witness :
    coerceValue (ascii "NVARCHAR")
        (GoValue.goString (ascii "hola" ++ [0] ++ ascii "mundo") : GoValue Unit)
      = .goString (stripNul (ascii "hola" ++ [0] ++ ascii "mundo"))
    ∧ coerceValue (ascii "NVARCHAR")
        (GoValue.goBytes (ascii "hola" ++ [0] ++ ascii "mundo") : GoValue Unit)
      = .goString (stripNul (ascii "hola" ++ [0] ++ ascii "mundo"))
    ∧ (0 : Byte) ∉ stripNul (ascii "hola" ++ [0] ++ ascii "mundo")
    ∧ (0 : Byte) ∉ stripNul (ascii "hola" ++ [0] ++ ascii "mundo") :=
  claim1_text_strips_nul (ascii "NVARCHAR") _ _
    (by decide) (by decide) (by decide) (by decide) (by decide)

/-- C4: a raw byte sequence in a BIT/BOOLEAN column coerces to boolean true
exactly when the first byte is 0x01, and to boolean false for any other
first byte. -/
theorem claim4_bit_first_byte {α : Type} (dbTypeName : Bytes) (b : Byte) (rest : Bytes)
    (h : toUpperB dbTypeName = ascii "BIT" ∨ toUpperB dbTypeName = ascii "BOOLEAN") :
    (b = 1 → coerceValue dbTypeName (GoValue.goBytes (b :: rest) : GoValue α) = .goBool true)
    ∧ (b ≠ 1 → coerceValue dbTypeName (GoValue.goBytes (b :: rest) : GoValue α) = .goBool false) := by
  constructor <;> intro hb <;> simp [coerceValue, h, hb]

/-- Witness for C4 at the boundary scenario of spec §8: a BIT cell holding
byte 0x01 coerces to true and one holding byte 0x00 coerces to false. -/
theorem claim4_witness :
    coerceValue (ascii "bit") (GoValue.goBytes [1] : GoValue Unit) = .goBool true
    ∧ coerceValue (ascii "bit") (GoValue.goBytes [0] : GoValue Unit) = .goBool false :=
  ⟨(claim4_bit_first_byte (ascii "bit") 1 [] (Or.inl (by decide))).1 rfl,
   (claim4_bit_first_byte (ascii "bit") 0 [] (Or.inl (by decide))).2 (by decide)⟩

/-- C9: an empty byte sequence in a BIT/BOOLEAN column coerces to boolean
false — not to null and not to an error — because `len(t) > 0 && t[0] == 1`
is false for the empty slice. -/
theorem claim9_empty_bit_is_false {α : Type} (dbTypeName : Bytes)
    (h : toUpperB dbTypeName = ascii "BIT" ∨ toUpperB dbTypeName = ascii "BOOLEAN") :
    coerceValue dbTypeName (GoValue.goBytes [] : GoValue α) = .goBool false := by
  simp [coerceValue, h]

/-- Witness for C9: an empty BIT cell. -/
theorem claim9_witness :
    coerceValue (ascii "BIT") (GoValue.goBytes [] : GoValue Unit) = .goBool false :=
  claim9_empty_bit_is_false (ascii "BIT") (Or.inl (by decide))

/-- C5: the ignore policy skips a table exactly when its lower-cased name is
one of the three system/diagram names, ends with `_ct`, contains `_ct_`, or
is one of the six change-tracking catalog names. -/
theorem claim5_ignore_policy (tableName : Bytes) :
    isIgnoredTable tableName = true ↔
      (toLowerB tableName = ascii "dtproperties"
       ∨ toLowerB tableName = ascii "sysdiagrams"
       ∨ toLowerB tableName = ascii "systranschemas"
       ∨ hasSuffixB (toLowerB tableName) (ascii "_ct") = true
       ∨ containsB (toLowerB tableName) (ascii "_ct_") = true
       ∨ toLowerB tableName = ascii "change_tables"
       ∨ toLowerB tableName = ascii "ddl_history"
       ∨ toLowerB tableName = ascii "lsn_time_mapping"
       ∨ toLowerB tableName = ascii "captured_columns"
       ∨ toLowerB tableName = ascii "index_columns"
       ∨ toLowerB tableName = ascii "comandos") := by
  simp only [isIgnoredTable]
  split_ifs with h1 h2 h3 <;> simp_all <;> tauto

/-- C7: the generated primary-key name is exactly `pk_<namespace>_<table>`
truncated to 63 bytes, the generated foreign-key name is exactly
`fk_<origin_table>_<origin_column>_<referenced_table>` truncated to 63
bytes, and both always have length at most 63. -/
theorem claim7_constraint_names (schema table col refTable : Bytes) :
    pkConstraintName schema table = truncate63 (ascii "pk_" ++ schema ++ ascii "_" ++ table)
    ∧ fkConstraintName table col refTable
        = truncate63 (ascii "fk_" ++ table ++ ascii "_" ++ col ++ ascii "_" ++ refTable)
    ∧ (pkConstraintName schema table).length ≤ 63
    ∧ (fkConstraintName table col refTable).length ≤ 63 :=
  ⟨rfl, rfl, truncate63_length_le _, truncate63_length_le _⟩

lemma hexSeq_length (bs : Bytes) : (hexSeq bs).length = 2 * bs.length := by
  induction bs with
  | nil => rfl
  | cons b rest ih =>
    simp [hexSeq, hexPair, ih]
    omega

lemma hexDigitByte_lowerHex (n : Fin 16) : isLowerHexOrDash (hexDigitByte n) = true := by
  have hn := n.isLt
  unfold hexDigitByte isLowerHexOrDash
  split <;> simp <;> omega

lemma hexSeq_lowerHex (bs : Bytes) (x : Byte) (hx : x ∈ hexSeq bs) :
    isLowerHexOrDash x = true := by
  induction bs with
  | nil => simp [hexSeq] at hx
  | cons b rest ih =>
    simp only [hexSeq, hexPair, List.mem_append, List.mem_cons, List.not_mem_nil, or_false] at hx
    rcases hx with (rfl | rfl) | hx
    · exact hexDigitByte_lowerHex _
    · exact hexDigitByte_lowerHex _
    · exact ih hx

lemma uuidHyphenated_alphabet (t : Bytes) (x : Byte) (hx : x ∈ uuidHyphenated t) :
    isLowerHexOrDash x = true := by
  simp only [uuidHyphenated, List.mem_append, List.mem_cons, List.not_mem_nil, or_false,
    or_assoc] at hx
  rcases hx with h | rfl | h | rfl | h | rfl | h | rfl | h
  all_goals first
    | exact hexSeq_lowerHex _ _ h
    | decide

/-- C3: a 16-byte raw value in a UNIQUEIDENTIFIER column coerces to the
hexadecimal string grouped 4-2-2-2-6 with hyphens (so 36 characters drawn
from the lower-case hex alphabet plus the hyphen); any other length coerces
to null. -/
theorem claim3_uuid_coercion {α : Type} (dbTypeName : Bytes) (t : Bytes)
    (h : toUpperB dbTypeName = ascii "UNIQUEIDENTIFIER") :
    (t.length = 16 →
      coerceValue dbTypeName (GoValue.goBytes t : GoValue α)
        = .goString (hexSeq (t.take 4) ++ [45] ++ hexSeq ((t.drop 4).take 2) ++ [45]
            ++ hexSeq ((t.drop 6).take 2) ++ [45] ++ hexSeq ((t.drop 8).take 2) ++ [45]
            ++ hexSeq (t.drop 10))
      ∧ (uuidHyphenated t).length = 36
      ∧ (∀ x ∈ uuidHyphenated t, isLowerHexOrDash x = true))
    ∧ (t.length ≠ 16 → coerceValue dbTypeName (GoValue.goBytes t : GoValue α) = .goNull) := by
  constructor
  · intro h16
    refine ⟨by simp +decide [coerceValue, h, h16, uuidHyphenated], ?_,
      fun x hx => uuidHyphenated_alphabet t x hx⟩
    simp only [uuidHyphenated, List.length_append, hexSeq_length, List.length_take,
      List.length_drop, List.length_cons, List.length_nil, h16]
    omega
  · intro hne
    simp +decide [coerceValue, h, hne]

/-- Witness for C3 at the boundary scenario of spec §8: the 16 example bytes
yield the canonical string `11223344-5566-7788-99aa-bbccddeeff00`, and a
2-byte value yields null. -/
theorem claim3_witness :
    coerceValue (ascii "UNIQUEIDENTIFIER") (GoValue.goBytes uuidExampleBytes : GoValue Unit)
      = .goString (ascii "11223344-5566-7788-99aa-bbccddeeff00")
    ∧ (uuidHyphenated uuidExampleBytes).length = 36
    ∧ coerceValue (ascii "UNIQUEIDENTIFIER") (GoValue.goBytes [1, 2] : GoValue Unit) = .goNull := by
  have h := claim3_uuid_coercion (α := Unit) (ascii "UNIQUEIDENTIFIER") uuidExampleBytes (by decide)
  have h2 := claim3_uuid_coercion (α := Unit) (ascii "UNIQUEIDENTIFIER") [1, 2] (by decide)
  exact ⟨by rw [(h.1 (by decide)).1]; decide, (h.1 (by decide)).2.1, h2.2 (by decide)⟩

/-- C2: the type mapper is pure and total (a Lean function), factors through
upper-casing as the spec's table `specTypeTable`, and realises the table's
rows, including the precision-dependent NUMERIC row and the catch-all TEXT
row for every name not listed. -/
theorem claim2_type_mapper (t : Bytes) (p s : Int) :
    getPostgresType t p s = specTypeTable (toUpperB t) p s
    ∧ getPostgresType (ascii "TINYINT") p s = ascii "SMALLINT"
    ∧ getPostgresType (ascii "SMALLINT") p s = ascii "SMALLINT"
    ∧ getPostgresType (ascii "BIT") p s = ascii "BOOLEAN"
    ∧ (0 < p → getPostgresType (ascii "DECIMAL") p s
        = ascii "NUMERIC(" ++ ascii (toString p) ++ ascii ", " ++ ascii (toString s) ++ ascii ")")
    ∧ (p ≤ 0 → getPostgresType (ascii "MONEY") p s = ascii "NUMERIC")
    ∧ getPostgresType (ascii "BINARY") p s = ascii "BYTEA"
    ∧ getPostgresType (ascii "VARBINARY") p s = ascii "BYTEA"
    ∧ getPostgresType (ascii "IMAGE") p s = ascii "BYTEA"
    ∧ getPostgresType (ascii "TIMESTAMP_SQL") p s = ascii "BYTEA"
    ∧ getPostgresType (ascii "UNIQUEIDENTIFIER") p s = ascii "UUID"
    ∧ (toUpperB t ∉ mappedTypeNames → getPostgresType t p s = ascii "TEXT") := by
  refine ⟨rfl, rfl, rfl, rfl, ?_, ?_, rfl, rfl, rfl, rfl, rfl, ?_⟩
  · intro hp
    have hd : getPostgresType (ascii "DECIMAL") p s
        = (if p > 0 then
            ascii "NUMERIC(" ++ ascii (toString p) ++ ascii ", " ++ ascii (toString s) ++ ascii ")"
          else ascii "NUMERIC") := rfl
    rw [hd, if_pos hp]
  · intro hp
    have hm : getPostgresType (ascii "MONEY") p s
        = (if p > 0 then
            ascii "NUMERIC(" ++ ascii (toString p) ++ ascii ", " ++ ascii (toString s) ++ ascii ")"
          else ascii "NUMERIC") := rfl
    rw [hm, if_neg (by omega)]
  · intro hmem
    simp only [mappedTypeNames, List.mem_cons, List.not_mem_nil, or_false, not_or] at hmem
    obtain ⟨h1, h2, h3, h4, h5, h6, h7, h8, h9, h10, h11, h12, h13, h14, h15, h16, h17,
      h18, h19, h20, h21, h22, h23, h24, h25, h26, h27, h28, h29⟩ := hmem
    simp [getPostgresType, h1, h2, h3, h4, h5, h6, h7, h8, h9, h10, h11, h12, h13, h14,
      h15, h16, h17, h18, h19, h20, h21, h22, h23, h24, h25, h26, h27, h28, h29]

/-- Witness for C2: concrete evaluations of the NUMERIC rows and of the
catch-all row at the unlisted name `xml`. -/
theorem claim2_witness :
    getPostgresType (ascii "DECIMAL") 18 4
      = ascii "NUMERIC(" ++ ascii (toString (18 : Int)) ++ ascii ", "
          ++ ascii (toString (4 : Int)) ++ ascii ")"
    ∧ getPostgresType (ascii "MONEY") 0 4 = ascii "NUMERIC"
    ∧ getPostgresType (ascii "xml") 18 4 = ascii "TEXT" :=
  ⟨(claim2_type_mapper (ascii "xml") 18 4).2.2.2.2.1 (by norm_num),
   (claim2_type_mapper (ascii "xml") 0 4).2.2.2.2.2.1 (by norm_num),
   (claim2_type_mapper (ascii "xml") 18 4).2.2.2.2.2.2.2.2.2.2.2 (by decide)⟩

lemma rowLoop_foldl (rows : List RowOutcome) (st : RowLoopResult) :
    (rows.foldl processRow st).insertedRows ≤ st.insertedRows + rows.length
    ∧ (rows.foldl processRow st).insertErrorLogs = st.insertErrorLogs := by
  induction rows generalizing st with
  | nil => simp
  | cons r rest ih =>
    obtain ⟨ha, hb⟩ := ih (processRow st r)
    cases r <;> simp only [List.foldl_cons, processRow, List.length_cons] at ha hb ⊢ <;>
      exact ⟨by omega, by omega⟩

/-- C6 counterexample: a run over a single source row whose insert fails
ends with strictly fewer target rows than source rows while the loop has
emitted zero insert-error log lines (the error handler at main.go lines
280-282 is the empty `// Silencioso` branch), refuting that every missing
row is reflected in a logged insert error. -/
theorem claim6_counterexample :
    (rowLoop [RowOutcome.insertFail]).insertedRows < [RowOutcome.insertFail].length
    ∧ (rowLoop [RowOutcome.insertFail]).insertErrorLogs = 0 := by
  decide

/-- C6 amended: for every stream of source-row outcomes the number of rows
reaching the target is at most the number of source rows, and the row loop
logs no insert error at all — failed inserts are swallowed silently. -/
theorem claim6_amended_rowcount (rows : List RowOutcome) :
    (rowLoop rows).insertedRows ≤ rows.length
    ∧ (rowLoop rows).insertErrorLogs = 0 := by
  have h := rowLoop_foldl rows ⟨0, 0, 0⟩
  exact ⟨by simpa using h.1, by simpa using h.2⟩

lemma runMigration_not_written (ws : List (TableKey × TableContent)) (st : TargetState)
    (k : TableKey) (h : ∀ w ∈ ws, w.1 ≠ k) : runMigration ws st k = st k := by
  induction ws generalizing st with
  | nil => rfl
  | cons w rest ih =>
    have hw : w.1 ≠ k := h w (List.mem_cons_self w rest)
    have hrest : ∀ u ∈ rest, u.1 ≠ k := fun u hu => h u (List.mem_cons_of_mem w hu)
    simp only [runMigration]
    rw [ih _ hrest]
    simp [dropCreateFill, Ne.symm hw]

lemma runMigration_written (ws : List (TableKey × TableContent)) (k : TableKey)
    (h : ∃ w ∈ ws, w.1 = k) (st st' : TargetState) :
    runMigration ws st k = runMigration ws st' k := by
  induction ws generalizing st st' with
  | nil => simp at h
  | cons w rest ih =>
    by_cases hr : ∃ u ∈ rest, u.1 = k
    · simpa only [runMigration] using ih hr _ _
    · have hwk : w.1 = k := by
        rcases h with ⟨u, hu, huk⟩
        rcases List.mem_cons.mp hu with rfl | hmem
        · exact huk
        · exact absurd ⟨u, hmem, huk⟩ hr
      have hnone : ∀ u ∈ rest, u.1 ≠ k := fun u hu hc => hr ⟨u, hu, hc⟩
      simp only [runMigration]
      rw [runMigration_not_written rest _ k hnone, runMigration_not_written rest _ k hnone]
      simp [dropCreateFill, hwk]

/-- C8: because each table is dropped with cascade and rebuilt from content
computed from the source alone, running the migrator a second time
back-to-back performs the same write list and leaves the target state of the
first run unchanged. -/
theorem claim8_rerun_idempotent (ws : List (TableKey × TableContent)) (st : TargetState) :
    runMigration ws (runMigration ws st) = runMigration ws st := by
  funext k
  by_cases h : ∃ w ∈ ws, w.1 = k
  · exact runMigration_written ws k h _ _
  · have hn : ∀ w ∈ ws, w.1 ≠ k := fun w hw hc => h ⟨w, hw, hc⟩
    rw [runMigration_not_written ws _ k hn]

/-- C10: every generated foreign-key statement qualifies both the origin
table and the referenced table with the same `schema` — the target namespace
of the source database being copied — even though the catalog row only names
the referenced table. -/
theorem claim10_fk_single_namespace (schema tableName : Bytes)
    (catalogRows : List CatalogFkRow) (fk : ForeignKeySQL)
    (hmem : fk ∈ getForeignKeys schema tableName catalogRows) :
    ∃ r ∈ catalogRows,
      fk.SQL =
        ascii "ALTER TABLE \"" ++ schema ++ ascii "\".\"" ++ tableName
          ++ ascii "\" ADD CONSTRAINT \"" ++ fkConstraintName tableName r.col r.refTable
          ++ ascii "\" FOREIGN KEY (\"" ++ r.col
          ++ ascii "\") REFERENCES \"" ++ schema ++ ascii "\".\"" ++ r.refTable
          ++ ascii "\" (\"" ++ r.refCol ++ ascii "\")" := by
  unfold getForeignKeys at hmem
  rcases List.mem_map.mp hmem with ⟨r, hr, rfl⟩
  exact ⟨r, hr, rfl⟩

/-- A sample catalog row for the C10 witness. -/
def demoCatalogRow : CatalogFkRow :=
  { fkName := ascii "FK_pedimentos_clientes"
    col := ascii "cliente_id"
    refTable := ascii "clientes"
    refCol := ascii "id" }

/-- The descriptor the migrator generates from `demoCatalogRow` for table
`pedimentos` of namespace `vin`. -/
def demoFkDescr : ForeignKeySQL :=
  (getForeignKeys (ascii "vin") (ascii "pedimentos") [demoCatalogRow]).headD ⟨[], []⟩

/-- Witness for C10: the concrete generated statement references `clientes`
inside namespace `vin`, the namespace of the origin table. -/
theorem claim10_witness :
    ∃ r ∈ [demoCatalogRow],
      demoFkDescr.SQL =
        ascii "ALTER TABLE \"" ++ ascii "vin" ++ ascii "\".\"" ++ ascii "pedimentos"
          ++ ascii "\" ADD CONSTRAINT \""
          ++ fkConstraintName (ascii "pedimentos") r.col r.refTable
          ++ ascii "\" FOREIGN KEY (\"" ++ r.col
          ++ ascii "\") REFERENCES \"" ++ ascii "vin" ++ ascii "\".\"" ++ r.refTable
          ++ ascii "\" (\"" ++ r.refCol ++ ascii "\")" :=
  claim10_fk_single_namespace (ascii "vin") (ascii "pedimentos") [demoCatalogRow]
    demoFkDescr (by decide)

end Migration
